import Mathlib

/-!
Verification of the voice-assistant core: the command matcher and query
processing of `voice_assistant/nlp_processor.py`, the conversation
orchestration of `voice_assistant/assistant_manager.py`, and the error
normalisation of `rag_client/api_client.py`.

Strings are modelled as lists of characters (`Str`).  Python regex matching
with `re.IGNORECASE` is modelled by ASCII case folding (`lowerChar`), and the
Python `$` anchor, which accepts the end of the string or a position just
before one final newline, is modelled by `stripNL`.  Network calls and
microphone input are passed in as explicit arguments (`Except ServiceError
RagSuccess`, `SpeechOutcome`), and the callbacks the manager fires are
returned as an explicit list of `Event`s.
-/

/-- Model of a Python `str`: a list of characters. -/
abbrev Str := List Char

/-- Character list of a Lean string literal. -/
def lit (s : String) : Str := s.data

/-- ASCII lowercasing of one character, as both Python `str.lower` and
`re.IGNORECASE` act on the ASCII letters used by the pattern table. -/
def lowerChar : Char → Char
  | 'A' => 'a' | 'B' => 'b' | 'C' => 'c' | 'D' => 'd' | 'E' => 'e' | 'F' => 'f'
  | 'G' => 'g' | 'H' => 'h' | 'I' => 'i' | 'J' => 'j' | 'K' => 'k' | 'L' => 'l'
  | 'M' => 'm' | 'N' => 'n' | 'O' => 'o' | 'P' => 'p' | 'Q' => 'q' | 'R' => 'r'
  | 'S' => 's' | 'T' => 't' | 'U' => 'u' | 'V' => 'v' | 'W' => 'w' | 'X' => 'x'
  | 'Y' => 'y' | 'Z' => 'z' | c => c

/-- Lowercase an entire string, character by character. -/
def lowerStr (s : Str) : Str := s.map lowerChar

/-- Python regex `$` (no `re.MULTILINE`) also matches just before one final
newline; patterns of the form `^lit$` therefore accept `lit` with at most one
trailing newline removed. -/
def stripNL (s : Str) : Str := if s.getLast? = some '\n' then s.dropLast else s

/-- Whitespace characters removed by Python `str.strip()` (ASCII part). -/
def isPySpace (c : Char) : Bool :=
  c = ' ' || c = '\t' || c = '\n' || c = '\r' || c = '\x0b' || c = '\x0c'

/-- Python `str.strip()`. -/
def pyStrip (s : Str) : Str :=
  ((s.dropWhile isPySpace).reverse.dropWhile isPySpace).reverse

/-- The condition the regex piece `(.+)$` puts on the rest of the utterance
(after `stripNL` was applied to the whole string): at least one character,
none of them a newline, since `.` never matches a newline. -/
def nameOk (r : Str) : Prop := r ≠ [] ∧ '\n' ∉ r

instance (r : Str) : Decidable (nameOk r) := by unfold nameOk; infer_instance

/-- The command intents of `NLPProcessor.command_patterns` (insertion order of
the Python dict is its iteration order). -/
inductive Intent
  | help
  | exitCmd
  | repeatCmd
  | setUserType
  | setUserName
  | getAssistantName
deriving DecidableEq, Repr

/-- Pattern `^help$|^what can you do$|^what commands` (IGNORECASE). -/
def matchHelp (s : Str) : Option (List Str) :=
  if lowerStr (stripNL s) = lit "help" ∨ lowerStr (stripNL s) = lit "what can you do"
      ∨ lit "what commands" <+: lowerStr s then
    some []
  else none

/-- Pattern `^exit$|^quit$|^goodbye$` (IGNORECASE). -/
def matchExit (s : Str) : Option (List Str) :=
  if lowerStr (stripNL s) = lit "exit" ∨ lowerStr (stripNL s) = lit "quit"
      ∨ lowerStr (stripNL s) = lit "goodbye" then
    some []
  else none

/-- Pattern `^repeat$|^say that again$|^what did you say` (IGNORECASE). -/
def matchRepeat (s : Str) : Option (List Str) :=
  if lowerStr (stripNL s) = lit "repeat" ∨ lowerStr (stripNL s) = lit "say that again"
      ∨ lit "what did you say" <+: lowerStr s then
    some []
  else none

/-- Pattern `^i am a (staff|student)$` (IGNORECASE); the single group is the
7-character-offset slice of the original utterance. -/
def matchSetUserType (s : Str) : Option (List Str) :=
  if lowerStr (stripNL s) = lit "i am a staff" ∨ lowerStr (stripNL s) = lit "i am a student" then
    some [(stripNL s).drop 7]
  else none

/-- Pattern `^(set|call|change) my name to (.+)$` (IGNORECASE); the two groups
are the verb and the name, both sliced from the original utterance.  The three
verb alternatives are mutually exclusive, so the alternation is tested in
order without backtracking effects. -/
def matchSetUserName (s : Str) : Option (List Str) :=
  let core := stripNL s
  if lit "set my name to " <+: lowerStr core ∧ nameOk (core.drop 15) then
    some [core.take 3, core.drop 15]
  else if lit "call my name to " <+: lowerStr core ∧ nameOk (core.drop 16) then
    some [core.take 4, core.drop 16]
  else if lit "change my name to " <+: lowerStr core ∧ nameOk (core.drop 18) then
    some [core.take 6, core.drop 18]
  else none

/-- Pattern `^what is your name$|^who are you$` (IGNORECASE). -/
def matchGetAssistantName (s : Str) : Option (List Str) :=
  if lowerStr (stripNL s) = lit "what is your name" ∨ lowerStr (stripNL s) = lit "who are you" then
    some []
  else none

/-- `NLPProcessor.command_patterns`: the ordered pattern table. -/
def commandTable : List (Intent × (Str → Option (List Str))) :=
  [(.help, matchHelp),
   (.exitCmd, matchExit),
   (.repeatCmd, matchRepeat),
   (.setUserType, matchSetUserType),
   (.setUserName, matchSetUserName),
   (.getAssistantName, matchGetAssistantName)]

/-- `NLPProcessor._detect_command_intent`: iterate the table in order and
return the first `(intent, match)` pair, or `none`. -/
def detectCommandIntent (s : Str) : Option (Intent × List Str) :=
  commandTable.findSome? fun p => (p.2 s).map fun gs => (p.1, gs)

/-- The intent decision as a function of the lowercased utterance only; used
to state that matching is case-insensitive. -/
def detectIntentOnly (l : Str) : Option Intent :=
  if stripNL l = lit "help" ∨ stripNL l = lit "what can you do"
      ∨ lit "what commands" <+: l then some .help
  else if stripNL l = lit "exit" ∨ stripNL l = lit "quit"
      ∨ stripNL l = lit "goodbye" then some .exitCmd
  else if stripNL l = lit "repeat" ∨ stripNL l = lit "say that again"
      ∨ lit "what did you say" <+: l then some .repeatCmd
  else if stripNL l = lit "i am a staff" ∨ stripNL l = lit "i am a student" then
    some .setUserType
  else if lit "set my name to " <+: stripNL l ∧ nameOk ((stripNL l).drop 15) then
    some .setUserName
  else if lit "call my name to " <+: stripNL l ∧ nameOk ((stripNL l).drop 16) then
    some .setUserName
  else if lit "change my name to " <+: stripNL l ∧ nameOk ((stripNL l).drop 18) then
    some .setUserName
  else if stripNL l = lit "what is your name" ∨ stripNL l = lit "who are you" then
    some .getAssistantName
  else none

/-- The reply of `RAGAPIClient.query` on success: the client normalises the
service JSON, defaulting `response`, `confidence` and `sources`. -/
structure RagSuccess where
  answer : Str
  confidence : ℚ
  sources : List Str
deriving DecidableEq

/-- The two exception families `RAGAPIClient.query` raises for a failed call:
`requests.exceptions.RequestException` (transport, timeout, HTTP error
status) and `json.JSONDecodeError` (malformed reply body). -/
inductive ServiceError
  | transport (detail : Str)
  | badJson (detail : Str)
deriving DecidableEq

/-- `str(e)` for the exception raised by `RAGAPIClient.query`: the client
re-raises with the fixed prefixes of lines 115 and 118 of
`rag_client/api_client.py`. -/
def ServiceError.message : ServiceError → Str
  | .transport d => lit "Failed to connect to RAG API: " ++ d
  | .badJson d => lit "Invalid response from RAG API: " ++ d

/-- The response dictionary built by `NLPProcessor.process_query` and
`NLPProcessor._handle_command`; absent dictionary keys are modelled by the
default field values. -/
structure Response where
  query : Str
  response : Str
  success : Bool
  isCommand : Bool
  intent : Option Intent := none
  shouldExit : Bool := false
  shouldRepeat : Bool := false
  userTypeChanged : Bool := false
  userNameChanged : Bool := false
  confidence : Option ℚ := none
  sources : List Str := []
  error : Option Str := none
deriving DecidableEq

/-- The identity state `NLPProcessor` owns (`user_name`, `user_type`). -/
structure NLPState where
  userName : Str
  userType : Str
deriving DecidableEq

def emptyQueryText : Str := lit "I didn't catch that. Could you please repeat?"

def apologyText : Str := lit "I'm sorry, I encountered an error while processing your request."

def goodbyeText : Str := lit "Goodbye! Have a great day."

def repeatAckText : Str := lit "I'll repeat my last response."

def assistantNameText : Str :=
  lit "I'm your AI voice assistant. You can call me Assistant."

def nothingSaidText : Str := lit "I haven't said anything yet."

/-- `NLPProcessor._get_help_text`: the indented help block, outer whitespace
stripped. -/
def helpText : Str :=
  lit "Here are some things you can ask me:\n\n        - Ask any question and I'll try to find the answer\n        - \"Set my name to [name]\" to change your name\n        - \"I am a [staff/student]\" to change your user type\n        - \"What's your name?\" to learn about me\n        - \"Repeat\" to repeat my last response\n        - \"Exit\" or \"Quit\" to exit\n\n        How can I help you today?"

/-- `NLPProcessor._handle_command`. -/
def handleCommand (st : NLPState) (i : Intent) (gs : List Str) (q : Str) :
    NLPState × Response :=
  match i with
  | .help =>
      (st, {query := q, response := helpText, success := true, isCommand := true,
            intent := some .help})
  | .exitCmd =>
      (st, {query := q, response := goodbyeText, success := true, isCommand := true,
            intent := some .exitCmd, shouldExit := true})
  | .repeatCmd =>
      (st, {query := q, response := repeatAckText, success := true, isCommand := true,
            intent := some .repeatCmd, shouldRepeat := true})
  | .setUserType =>
      let t := lowerStr (gs.headD [])
      ({st with userType := t},
       {query := q, response := lit "I've updated your user type to " ++ t ++ lit ".",
        success := true, isCommand := true, intent := some .setUserType,
        userTypeChanged := true})
  | .setUserName =>
      let n := pyStrip (gs.getD 1 [])
      ({st with userName := n},
       {query := q, response := lit "I'll call you " ++ n ++ lit " from now on.",
        success := true, isCommand := true, intent := some .setUserName,
        userNameChanged := true})
  | .getAssistantName =>
      (st, {query := q, response := assistantNameText, success := true,
            isCommand := true, intent := some .getAssistantName})

/-- `NLPProcessor.process_query`: empty text is answered locally; a command is
handled locally; anything else is dispatched to the answer service, whose
outcome is the explicit `svc` argument, and a failure is normalised to a
`success := false` record carrying the apology and the exception text. -/
def processQuery (st : NLPState) (q : Str) (svc : Except ServiceError RagSuccess) :
    NLPState × Response :=
  if q = [] then
    (st, {query := [], response := emptyQueryText, success := false, isCommand := false})
  else
    match detectCommandIntent q with
    | some (i, gs) => handleCommand st i gs q
    | none =>
        match svc with
        | .ok r =>
            (st, {query := q, response := r.answer, success := true, isCommand := false,
                  confidence := some r.confidence, sources := r.sources})
        | .error e =>
            (st, {query := q, response := apologyText, success := false,
                  isCommand := false, error := some e.message})

/-- One entry of `AssistantManager.conversation_history`. -/
structure HistoryEntry where
  query : Str
  response : Response
  userName : Str
  userType : Str
deriving DecidableEq

/-- The callbacks `AssistantManager` fires, in firing order, plus the text
handed to the speech-output collaborator. -/
inductive Event
  | listeningStart
  | listeningEnd
  | speakingStart
  | speakingEnd
  | responseReady (r : Response)
  | userInfoChanged (name ty : Str)
  | spoke (text : Str)
deriving DecidableEq

/-- The mutable state of `AssistantManager` (plus its owned `NLPProcessor`). -/
structure AMState where
  nlp : NLPState
  userName : Str
  userType : Str
  isListening : Bool
  isSpeaking : Bool
  lastQuery : Option Str
  lastResponse : Option Response
  history : List HistoryEntry
deriving DecidableEq

/-- `AssistantManager._speak_response` plus `TextToSpeech.speak`: the speaking
flag is raised, the TTS thread fires the start callback, speaks, and its
finally-block fires the end callback which clears the flag; empty text makes
`TextToSpeech.speak` return at once, firing nothing. -/
def speakResponse (st : AMState) (text : Str) : AMState × List Event :=
  if text = [] then ({st with isSpeaking := true}, [])
  else ({st with isSpeaking := false}, [.speakingStart, .spoke text, .speakingEnd])

/-- The shared turn body of `AssistantManager.process_text_input` (lines
165-191) and `AssistantManager._listen_and_respond_thread` (lines 101-128),
which are duplicated in the source: cache the query, process it, sync the
identity copies (firing the user-info-changed callback when they differ),
append to history, fire the response callback, speak. -/
def runTurn (st : AMState) (text : Str) (svc : Except ServiceError RagSuccess) :
    AMState × List Event :=
  let st1 := {st with lastQuery := some text}
  let pr := processQuery st1.nlp text svc
  let st2 := {st1 with nlp := pr.1, lastResponse := some pr.2}
  let changed := st2.userName ≠ pr.1.userName ∨ st2.userType ≠ pr.1.userType
  let st3 := if changed then {st2 with userName := pr.1.userName, userType := pr.1.userType}
             else st2
  let evs1 : List Event := if changed then [.userInfoChanged pr.1.userName pr.1.userType]
             else []
  let st4 := {st3 with history := st3.history ++
               [{query := text, response := pr.2, userName := st3.userName,
                 userType := st3.userType}]}
  let sp := speakResponse st4 pr.2.response
  (sp.1, evs1 ++ [.responseReady pr.2] ++ sp.2)

/-- `AssistantManager.process_text_input`: only the exactly-empty string is
rejected (`if not text: return`). -/
def processTextInput (st : AMState) (text : Str) (svc : Except ServiceError RagSuccess) :
    AMState × List Event :=
  if text = [] then (st, []) else runTurn st text svc

/-- The possible outcomes of `SpeechRecognizer.recognize_from_microphone`:
wait-timeout (start callback fired, end callback not), a microphone setup
error (no callback fired), unusable audio (both callbacks fired, no text),
or recognised text (both callbacks fired). -/
inductive SpeechOutcome
  | timeout
  | initError
  | noSpeech
  | recognized (t : Str)
deriving DecidableEq

/-- `AssistantManager.listen_and_respond` together with its thread body
`_listen_and_respond_thread`: a request while already listening returns at
once; otherwise the listening flag is raised, the recognizer runs (the
manager's end-of-listening callback clears the flag), and recognised text
goes through the shared turn body while an empty outcome just clears the
flag. -/
def listenAndRespondStep (st : AMState) (sp : SpeechOutcome)
    (svc : Except ServiceError RagSuccess) : AMState × List Event :=
  if st.isListening then (st, [])
  else
    let st1 := {st with isListening := true}
    match sp with
    | .timeout => ({st1 with isListening := false}, [.listeningStart])
    | .initError => ({st1 with isListening := false}, [])
    | .noSpeech => ({st1 with isListening := false}, [.listeningStart, .listeningEnd])
    | .recognized t =>
        let st2 := {st1 with isListening := false}
        if t = [] then ({st2 with isListening := false}, [.listeningStart, .listeningEnd])
        else
          let r := runTurn st2 t svc
          (r.1, .listeningStart :: .listeningEnd :: r.2)

/-- `AssistantManager.repeat_last_response`. -/
def repeatLastResponse (st : AMState) : AMState × List Event :=
  match st.lastResponse with
  | some r => speakResponse st r.response
  | none => speakResponse st nothingSaidText

/-- The two user types accepted by `AssistantManager.set_user_info`. -/
def allowedTypes : List Str := [lit "staff", lit "student"]

/-- Python truthiness of an optional string argument. -/
def truthyOpt : Option Str → Bool
  | none => false
  | some s => !s.isEmpty

/-- `AssistantManager.set_user_info`: a truthy name is stored; a type is
stored only when it is in the allowed list; the user-info-changed callback
fires whenever either argument was truthy, with the (possibly unchanged)
current identity.  The Python method returns `None`: its whole observable
outcome is the state and the fired callbacks. -/
def setUserInfo (st : AMState) (n t : Option Str) : AMState × List Event :=
  let st1 := if truthyOpt n then
      {st with userName := n.getD [], nlp := {st.nlp with userName := n.getD []}}
    else st
  let st2 := if truthyOpt t ∧ t.getD [] ∈ allowedTypes then
      {st1 with userType := t.getD [], nlp := {st1.nlp with userType := t.getD []}}
    else st1
  if truthyOpt n ∨ truthyOpt t then
    (st2, [.userInfoChanged st2.userName st2.userType])
  else (st2, [])

/-- `AssistantManager.get_user_info`. -/
def getUserInfo (st : AMState) : Str × Str := (st.userName, st.userType)

/-- `AssistantManager.clear_conversation_history`. -/
def clearConversationHistory (st : AMState) : AMState :=
  {st with history := [], lastQuery := none, lastResponse := none}

/-- `AssistantManager.__init__` with the configuration defaults
`DEFAULT_USER_NAME = "User"`, `DEFAULT_USER_TYPE = "student"`. -/
def initState : AMState :=
  {nlp := {userName := lit "User", userType := lit "student"},
   userName := lit "User", userType := lit "student",
   isListening := false, isSpeaking := false,
   lastQuery := none, lastResponse := none, history := []}

/-- The identity-type invariant: both the manager's copy and the NLP
processor's copy of `user_type` are one of the two enumerated values. -/
def typeInv (st : AMState) : Prop :=
  st.userType ∈ allowedTypes ∧ st.nlp.userType ∈ allowedTypes

/-! ### Helper lemmas -/

theorem lowerChar_eq_newline_iff (c : Char) : lowerChar c = '\n' ↔ c = '\n' := by
  unfold lowerChar
  split <;> simp_all

theorem lowerStr_stripNL (s : Str) : lowerStr (stripNL s) = stripNL (lowerStr s) := by
  unfold stripNL lowerStr
  rw [List.getLast?_map]
  cases h : s.getLast? with
  | none => simp
  | some c =>
    by_cases hc : c = '\n'
    · subst hc
      simp [List.map_dropLast, show lowerChar '\n' = '\n' from rfl]
    · have hne : lowerChar c ≠ '\n' := fun he => hc ((lowerChar_eq_newline_iff c).1 he)
      simp [hc, hne]

theorem nameOk_lowerStr (r : Str) : nameOk (lowerStr r) ↔ nameOk r := by
  unfold nameOk lowerStr
  simp [List.mem_map, lowerChar_eq_newline_iff]

theorem nameOk_stripNL_lower (s : Str) (k : Nat) :
    nameOk ((stripNL (lowerStr s)).drop k) ↔ nameOk ((stripNL s).drop k) := by
  rw [← lowerStr_stripNL, show lowerStr (stripNL s) = (stripNL s).map lowerChar from rfl,
    ← List.map_drop]
  exact nameOk_lowerStr _

theorem detect_map_fst (s : Str) :
    (detectCommandIntent s).map Prod.fst = detectIntentOnly (lowerStr s) := by
  simp only [detectCommandIntent, commandTable, List.findSome?_cons, List.findSome?_nil,
    matchHelp, matchExit, matchRepeat, matchSetUserType, matchSetUserName,
    matchGetAssistantName, detectIntentOnly, lowerStr_stripNL, nameOk_stripNL_lower]
  split_ifs <;> rfl

theorem detect_nil : detectCommandIntent [] = none := by decide

/-- Inversion for the matcher: a detected `(intent, groups)` pair comes from a
table entry carrying that intent whose matcher produced those groups. -/
theorem detect_entry (q : Str) (i : Intent) (gs : List Str)
    (h : detectCommandIntent q = some (i, gs)) :
    ∃ m, (i, m) ∈ commandTable ∧ m q = some gs := by
  unfold detectCommandIntent at h
  rw [List.findSome?_eq_some_iff] at h
  obtain ⟨l₁, a, l₂, htab, ha, -⟩ := h
  rw [Option.map_eq_some'] at ha
  obtain ⟨gs', hgs', heq⟩ := ha
  have h1 : a.1 = i := congrArg Prod.fst heq
  have h2 : gs' = gs := congrArg Prod.snd heq
  refine ⟨a.2, ?_, h2 ▸ hgs'⟩
  have hmem : a ∈ commandTable := by
    rw [htab]
    exact List.mem_append_right _ (List.mem_cons_self _ _)
  rw [← h1]
  simpa using hmem

/-- A detected `SetUserType` comes from `matchSetUserType`. -/
theorem detect_setUserType_match (q : Str) (gs : List Str)
    (h : detectCommandIntent q = some (.setUserType, gs)) :
    matchSetUserType q = some gs := by
  obtain ⟨m, hm, hq⟩ := detect_entry q _ gs h
  simp only [commandTable, List.mem_cons, List.not_mem_nil, or_false, Prod.mk.injEq] at hm
  rcases hm with ⟨h, -⟩ | ⟨h, -⟩ | ⟨h, -⟩ | ⟨-, rfl⟩ | ⟨h, -⟩ | ⟨h, -⟩ <;>
    first | exact hq | cases h

/-- A detected `SetUserName` comes from `matchSetUserName`. -/
theorem detect_setUserName_match (q : Str) (gs : List Str)
    (h : detectCommandIntent q = some (.setUserName, gs)) :
    matchSetUserName q = some gs := by
  obtain ⟨m, hm, hq⟩ := detect_entry q _ gs h
  simp only [commandTable, List.mem_cons, List.not_mem_nil, or_false, Prod.mk.injEq] at hm
  rcases hm with ⟨h, -⟩ | ⟨h, -⟩ | ⟨h, -⟩ | ⟨h, -⟩ | ⟨-, rfl⟩ | ⟨h, -⟩ <;>
    first | exact hq | cases h

/-- Whenever the matcher reports `SetUserType`, the single extracted group
lowercases to one of the two enumerated literals. -/
theorem detect_setUserType_group (q : Str) (gs : List Str)
    (h : detectCommandIntent q = some (.setUserType, gs)) :
    lowerStr (gs.headD []) = lit "staff" ∨ lowerStr (gs.headD []) = lit "student" := by
  have hm := detect_setUserType_match q gs h
  unfold matchSetUserType at hm
  split_ifs at hm with hc
  have hgs : gs = [(stripNL q).drop 7] := by
    simpa using hm.symm
  have hds : lowerStr ((stripNL q).drop 7) = (lowerStr (stripNL q)).drop 7 := by
    simp [lowerStr, List.map_drop]
  subst hgs
  cases hc with
  | inl hst =>
      left
      simp only [List.headD, hds, hst]
      decide
  | inr hst =>
      right
      simp only [List.headD, hds, hst]
      decide

theorem message_ne_nil (e : ServiceError) : e.message ≠ [] := by
  cases e <;> simp [ServiceError.message, lit]

/-- `process_query` leaves the identity state untouched unless the detected
intent is `SetUserType` or `SetUserName`. -/
theorem processQuery_frame (st : NLPState) (q : Str) (svc : Except ServiceError RagSuccess)
    (h1 : (detectCommandIntent q).map Prod.fst ≠ some .setUserType)
    (h2 : (detectCommandIntent q).map Prod.fst ≠ some .setUserName) :
    (processQuery st q svc).1 = st := by
  unfold processQuery
  split_ifs with hq
  · rfl
  cases hd : detectCommandIntent q with
  | none => cases svc <;> rfl
  | some p =>
      obtain ⟨i, gs⟩ := p
      cases i
      · rfl
      · rfl
      · rfl
      · exact absurd (by rw [hd]; rfl) h1
      · exact absurd (by rw [hd]; rfl) h2
      · rfl

theorem processQuery_error_record (st : NLPState) (q : Str) (e : ServiceError)
    (hq : q ≠ []) (hd : detectCommandIntent q = none) :
    processQuery st q (.error e) =
      (st, {query := q, response := apologyText, success := false, isCommand := false,
            error := some e.message}) := by
  unfold processQuery
  rw [if_neg hq, hd]

theorem processQuery_ok_record (st : NLPState) (q : Str) (r : RagSuccess)
    (hq : q ≠ []) (hd : detectCommandIntent q = none) :
    processQuery st q (.ok r) =
      (st, {query := q, response := r.answer, success := true, isCommand := false,
            confidence := some r.confidence, sources := r.sources}) := by
  unfold processQuery
  rw [if_neg hq, hd]

theorem processQuery_userType (st : NLPState) (q : Str) (svc : Except ServiceError RagSuccess) :
    (processQuery st q svc).1.userType = st.userType ∨
    ((processQuery st q svc).1.userType = lit "staff" ∨
     (processQuery st q svc).1.userType = lit "student") := by
  unfold processQuery
  split_ifs with hq
  · exact Or.inl rfl
  cases hd : detectCommandIntent q with
  | none => cases svc <;> exact Or.inl rfl
  | some p =>
      obtain ⟨i, gs⟩ := p
      cases i
      · exact Or.inl rfl
      · exact Or.inl rfl
      · exact Or.inl rfl
      · right
        have hg := detect_setUserType_group q gs hd
        simpa [handleCommand] using hg
      · exact Or.inl rfl
      · exact Or.inl rfl

theorem runTurn_history (st : AMState) (q : Str) (svc : Except ServiceError RagSuccess) :
    ∃ n t, (runTurn st q svc).1.history =
      st.history ++ [{query := q, response := (processQuery st.nlp q svc).2,
                      userName := n, userType := t}] := by
  simp only [runTurn, speakResponse]
  split_ifs <;> exact ⟨_, _, rfl⟩

theorem runTurn_responseReady (st : AMState) (q : Str) (svc : Except ServiceError RagSuccess) :
    Event.responseReady (processQuery st.nlp q svc).2 ∈ (runTurn st q svc).2 := by
  simp only [runTurn, speakResponse]
  split_ifs <;> simp

theorem runTurn_isListening (st : AMState) (q : Str) (svc : Except ServiceError RagSuccess) :
    (runTurn st q svc).1.isListening = st.isListening := by
  simp only [runTurn, speakResponse]
  split_ifs <;> rfl

theorem runTurn_nlp (st : AMState) (q : Str) (svc : Except ServiceError RagSuccess) :
    (runTurn st q svc).1.nlp = (processQuery st.nlp q svc).1 := by
  simp only [runTurn, speakResponse]
  split_ifs <;> rfl

theorem runTurn_userType (st : AMState) (q : Str) (svc : Except ServiceError RagSuccess) :
    (runTurn st q svc).1.userType = st.userType ∨
    (runTurn st q svc).1.userType = (processQuery st.nlp q svc).1.userType := by
  simp only [runTurn, speakResponse]
  split_ifs <;> simp

theorem typeInv_runTurn (st : AMState) (q : Str) (svc : Except ServiceError RagSuccess)
    (h : typeInv st) : typeInv (runTurn st q svc).1 := by
  have hn := processQuery_userType st.nlp q svc
  have hnlp : (runTurn st q svc).1.nlp.userType ∈ allowedTypes := by
    rw [runTurn_nlp]
    rcases hn with h2 | h2 | h2 <;> rw [h2]
    · exact h.2
    · decide
    · decide
  refine ⟨?_, hnlp⟩
  rcases runTurn_userType st q svc with h1 | h1 <;> rw [h1]
  · exact h.1
  · rcases hn with h2 | h2 | h2 <;> rw [h2]
    · exact h.2
    · decide
    · decide

theorem runTurn_changed_spec (st : AMState) (q : Str) (svc : Except ServiceError RagSuccess)
    (hch : st.userName ≠ (processQuery st.nlp q svc).1.userName ∨
           st.userType ≠ (processQuery st.nlp q svc).1.userType) :
    (runTurn st q svc).1.userType = (processQuery st.nlp q svc).1.userType ∧
    (runTurn st q svc).1.userName = (processQuery st.nlp q svc).1.userName ∧
    Event.userInfoChanged (processQuery st.nlp q svc).1.userName
        (processQuery st.nlp q svc).1.userType ∈ (runTurn st q svc).2 := by
  simp only [runTurn, speakResponse]
  split_ifs with h1 <;> exact ⟨rfl, rfl, by simp⟩

theorem runTurn_spoke (st : AMState) (q : Str) (svc : Except ServiceError RagSuccess)
    (h : (processQuery st.nlp q svc).2.response ≠ []) :
    Event.spoke (processQuery st.nlp q svc).2.response ∈ (runTurn st q svc).2 := by
  simp only [runTurn, speakResponse]
  rw [if_neg h]
  split_ifs <;> simp

/-! ### Claim theorems -/

/-- C1: `_detect_command_intent` is a pure function of the utterance.  It
returns `none` exactly when no entry of the fixed pattern table matches;
whenever it returns `some (i, gs)` the table splits as `pre ++ entry :: post`
where `entry` carries intent `i`, its pattern extracted the groups `gs`, and
no earlier entry matches (first-match policy, table order significant); and
the intent decision is case-insensitive: utterances with the same
lowercasing get the same intent. -/
theorem matcher_first_match_and_case_insensitive :
    (∀ s : Str, detectCommandIntent s = none ↔ ∀ p ∈ commandTable, p.2 s = none) ∧
    (∀ (s : Str) (i : Intent) (gs : List Str), detectCommandIntent s = some (i, gs) →
        ∃ pre entry post, commandTable = pre ++ entry :: post ∧ entry.1 = i ∧
          entry.2 s = some gs ∧ ∀ p ∈ pre, p.2 s = none) ∧
    (∀ s t : Str, lowerStr s = lowerStr t →
        (detectCommandIntent s).map Prod.fst = (detectCommandIntent t).map Prod.fst) := by
  refine ⟨?_, ?_, ?_⟩
  · intro s
    simp [detectCommandIntent, List.findSome?_eq_none_iff, Option.map_eq_none']
  · intro s i gs h
    unfold detectCommandIntent at h
    rw [List.findSome?_eq_some_iff] at h
    obtain ⟨l₁, a, l₂, htab, ha, hpre⟩ := h
    rw [Option.map_eq_some'] at ha
    obtain ⟨gs', hg, he⟩ := ha
    have h1 : a.1 = i := congrArg Prod.fst he
    have h2 : gs' = gs := congrArg Prod.snd he
    exact ⟨l₁, a, l₂, htab, h1, h2 ▸ hg,
      fun p hp => Option.map_eq_none'.mp (hpre p hp)⟩
  · intro s t h
    rw [detect_map_fst, detect_map_fst, h]

/-- Witness for C1 at a concrete input: the case-insensitivity part applied
to `"HELP"` and `"help"`. -/
theorem matcher_first_match_and_case_insensitive_witness :
    (detectCommandIntent (lit "HELP")).map Prod.fst
      = (detectCommandIntent (lit "help")).map Prod.fst :=
  matcher_first_match_and_case_insensitive.2.2 (lit "HELP") (lit "help") (by decide)

/-- C2: when the answer-service call for a non-command utterance fails, the
dispatcher returns (never raises) a record with `success = false`, the
generic apology text, and a populated, non-empty `error` field; the
orchestrator still appends exactly this record to the history and still
fires the response-ready callback. -/
theorem dispatch_failure_normalized (st : AMState) (q : Str) (e : ServiceError)
    (hq : q ≠ []) (hd : detectCommandIntent q = none)
    (hn : st.userName = st.nlp.userName) (ht : st.userType = st.nlp.userType) :
    (processQuery st.nlp q (.error e)).2.success = false ∧
    (processQuery st.nlp q (.error e)).2.response = apologyText ∧
    (processQuery st.nlp q (.error e)).2.error = some e.message ∧
    e.message ≠ [] ∧
    (processTextInput st q (.error e)).1.history = st.history ++
      [{query := q, response := (processQuery st.nlp q (.error e)).2,
        userName := st.userName, userType := st.userType}] ∧
    Event.responseReady (processQuery st.nlp q (.error e)).2
      ∈ (processTextInput st q (.error e)).2 := by
  have hrec := processQuery_error_record st.nlp q e hq hd
  have hch : ¬(st.userName ≠ st.nlp.userName ∨ st.userType ≠ st.nlp.userType) := by
    rw [hn, ht]
    simp
  refine ⟨by rw [hrec], by rw [hrec], by rw [hrec], message_ne_nil e, ?_, ?_⟩
  · unfold processTextInput
    rw [if_neg hq]
    simp only [runTurn, speakResponse, hrec]
    split_ifs with h1 <;> rfl
  · unfold processTextInput
    rw [if_neg hq]
    exact runTurn_responseReady st q (.error e)

/-- Witness for C2 at a concrete input. -/
theorem dispatch_failure_normalized_witness :
    (processQuery initState.nlp (lit "hello") (.error (.transport (lit "boom")))).2.success
        = false ∧
    (processQuery initState.nlp (lit "hello") (.error (.transport (lit "boom")))).2.response
        = apologyText ∧
    (processQuery initState.nlp (lit "hello") (.error (.transport (lit "boom")))).2.error
        = some (ServiceError.transport (lit "boom")).message ∧
    (ServiceError.transport (lit "boom")).message ≠ [] ∧
    (processTextInput initState (lit "hello") (.error (.transport (lit "boom")))).1.history
        = initState.history ++
      [{query := lit "hello",
        response := (processQuery initState.nlp (lit "hello")
          (.error (.transport (lit "boom")))).2,
        userName := initState.userName, userType := initState.userType}] ∧
    Event.responseReady
        (processQuery initState.nlp (lit "hello") (.error (.transport (lit "boom")))).2
      ∈ (processTextInput initState (lit "hello") (.error (.transport (lit "boom")))).2 :=
  dispatch_failure_normalized initState (lit "hello") (.transport (lit "boom"))
    (by decide) (by decide) rfl rfl

/-- C8 counterexample: the utterance `"set my name to  "` (name group is one
space, empty after trimming) matches `SetUserName` and nevertheless updates
the stored user name, from `"User"` to the empty string — the handler has no
non-emptiness validation. -/
theorem empty_trimmed_name_still_updates :
    detectCommandIntent (lit "set my name to  ")
        = some (.setUserName, [lit "set", lit " "]) ∧
    initState.userName = lit "User" ∧
    (processTextInput initState (lit "set my name to  ")
        (.error (.transport []))).1.userName = [] ∧
    (processTextInput initState (lit "set my name to  ")
        (.error (.transport []))).1.nlp.userName = [] := by
  decide

/-- C8 (amended): for every utterance the matcher classifies as
`SetUserName`, the handler stores the trimmed extracted name unconditionally
(no non-emptiness validation — an all-whitespace name sets the stored name to
the empty string), leaves the user type unchanged, and confirms with the
fixed phrasing. -/
theorem set_user_name_trims_without_validation (st : NLPState) (q v n : Str)
    (svc : Except ServiceError RagSuccess)
    (h : detectCommandIntent q = some (.setUserName, [v, n])) :
    (processQuery st q svc).1.userName = pyStrip n ∧
    (processQuery st q svc).1.userType = st.userType ∧
    (processQuery st q svc).2.response
      = lit "I'll call you " ++ pyStrip n ++ lit " from now on." := by
  have hq : q ≠ [] := by
    rintro rfl
    rw [detect_nil] at h
    cases h
  unfold processQuery
  rw [if_neg hq, h]
  exact ⟨rfl, rfl, rfl⟩

/-- Witness for C8's amended theorem at the all-whitespace name. -/
theorem set_user_name_trims_without_validation_witness :
    (processQuery ⟨lit "User", lit "student"⟩ (lit "set my name to  ")
        (.error (.transport []))).1.userName = pyStrip (lit " ") ∧
    (processQuery ⟨lit "User", lit "student"⟩ (lit "set my name to  ")
        (.error (.transport []))).1.userType = lit "student" ∧
    (processQuery ⟨lit "User", lit "student"⟩ (lit "set my name to  ")
        (.error (.transport []))).2.response
      = lit "I'll call you " ++ pyStrip (lit " ") ++ lit " from now on." :=
  set_user_name_trims_without_validation ⟨lit "User", lit "student"⟩
    (lit "set my name to  ") (lit "set") (lit " ") (.error (.transport [])) (by decide)

/-- C9: a processed utterance whose detected intent is neither `SetUserType`
nor `SetUserName` — every other command and every free-form query, whether
the dispatch succeeds or fails — leaves the stored identity exactly
unchanged. -/
theorem non_identity_turns_leave_identity (st : NLPState) (q : Str)
    (svc : Except ServiceError RagSuccess)
    (h1 : (detectCommandIntent q).map Prod.fst ≠ some .setUserType)
    (h2 : (detectCommandIntent q).map Prod.fst ≠ some .setUserName) :
    (processQuery st q svc).1 = st :=
  processQuery_frame st q svc h1 h2

/-- Witness for C9 at the `help` command. -/
theorem non_identity_turns_leave_identity_witness :
    (processQuery ⟨lit "User", lit "student"⟩ (lit "help") (.error (.transport []))).1
      = ⟨lit "User", lit "student"⟩ :=
  non_identity_turns_leave_identity ⟨lit "User", lit "student"⟩ (lit "help")
    (.error (.transport [])) (by decide) (by decide)

/-- C10: clearing the conversation history also resets the last-query and
last-response caches, so a repeat request issued right after the clear speaks
the fixed "I haven't said anything yet." message. -/
theorem clear_history_resets_repeat (st : AMState) :
    (clearConversationHistory st).history = [] ∧
    (clearConversationHistory st).lastQuery = none ∧
    (clearConversationHistory st).lastResponse = none ∧
    repeatLastResponse (clearConversationHistory st)
      = ({clearConversationHistory st with isSpeaking := false},
         [.speakingStart, .spoke nothingSaidText, .speakingEnd]) := by
  refine ⟨rfl, rfl, rfl, ?_⟩
  unfold repeatLastResponse clearConversationHistory speakResponse
  rw [if_neg (by decide : ¬(nothingSaidText = ([] : Str)))]

/-- C3 counterexample: the whitespace-only submission `"   "` is not
rejected: `process_text_input` only tests `if not text`, so `"   "` is truthy,
goes through the whole pipeline, is dispatched to the answer service as a
free-form query, and mutates the history. -/
theorem whitespace_input_not_rejected :
    (processTextInput initState (lit "   ")
        (.ok {answer := lit "The answer", confidence := 0, sources := []})).1.history.length
      = 1 ∧
    (processTextInput initState (lit "   ")
        (.ok {answer := lit "The answer", confidence := 0, sources := []})).1.lastResponse
      = some {query := lit "   ", response := lit "The answer", success := true,
              isCommand := false, confidence := some 0, sources := []} := by
  decide

/-- C3 (amended): only the exactly-empty submission is rejected before the
pipeline — no record, no history mutation, no collaborator callback; any other
text, including whitespace-only text such as `"   "` (the manager does not
trim), proceeds through the full pipeline: it produces exactly one response
record, appends exactly one history entry, and fires the response-ready
callback. -/
theorem empty_rejected_nonempty_processed :
    (∀ (st : AMState) (svc : Except ServiceError RagSuccess),
        processTextInput st [] svc = (st, [])) ∧
    (∀ (st : AMState) (q : Str) (svc : Except ServiceError RagSuccess), q ≠ [] →
        (∃ n t, (processTextInput st q svc).1.history = st.history ++
          [{query := q, response := (processQuery st.nlp q svc).2,
            userName := n, userType := t}]) ∧
        Event.responseReady (processQuery st.nlp q svc).2
          ∈ (processTextInput st q svc).2) := by
  constructor
  · intro st svc
    rfl
  · intro st q svc hq
    unfold processTextInput
    rw [if_neg hq]
    exact ⟨runTurn_history st q svc, runTurn_responseReady st q svc⟩

/-- Witness for C3's amended theorem at the whitespace-only input. -/
theorem empty_rejected_nonempty_processed_witness :
    (∃ n t, (processTextInput initState (lit "   ") (.error (.transport []))).1.history
        = initState.history ++
      [{query := lit "   ",
        response := (processQuery initState.nlp (lit "   ") (.error (.transport []))).2,
        userName := n, userType := t}]) ∧
    Event.responseReady (processQuery initState.nlp (lit "   ") (.error (.transport []))).2
      ∈ (processTextInput initState (lit "   ") (.error (.transport []))).2 :=
  empty_rejected_nonempty_processed.2 initState (lit "   ") (.error (.transport []))
    (by decide)

/-- C4 counterexample: from the initial state (empty history), processing the
utterance `"repeat"` appends a new history entry and speaks the fixed
acknowledgment `"I'll repeat my last response."` — not the "nothing said yet"
message the claim requires; nothing consumes the `should_repeat` flag. -/
theorem repeat_appends_history_and_speaks_ack :
    initState.history = [] ∧
    (processTextInput initState (lit "repeat") (.error (.transport []))).1.history.length
      = 1 ∧
    Event.spoke repeatAckText
      ∈ (processTextInput initState (lit "repeat") (.error (.transport []))).2 ∧
    Event.spoke nothingSaidText
      ∉ (processTextInput initState (lit "repeat") (.error (.transport []))).2 := by
  decide

/-- C4 (amended): processing the utterance `"repeat"` produces a command
record with the acknowledgment text and `shouldRepeat := true`, appends it to
the history, and speaks the acknowledgment (the flag is never consumed, so
the previous response is not re-spoken on this path).  Re-speaking happens
only through the separate repeat-last operation, which speaks the cached last
response verbatim, or the fixed "I haven't said anything yet." message when
the cache is empty, appending nothing. -/
theorem repeat_command_behavior :
    (∀ (st : AMState) (svc : Except ServiceError RagSuccess),
      (∃ n t, (processTextInput st (lit "repeat") svc).1.history = st.history ++
        [{query := lit "repeat",
          response := {query := lit "repeat", response := repeatAckText, success := true,
                       isCommand := true, intent := some .repeatCmd, shouldRepeat := true},
          userName := n, userType := t}]) ∧
      Event.spoke repeatAckText ∈ (processTextInput st (lit "repeat") svc).2) ∧
    (∀ (st : AMState) (r : Response), st.lastResponse = some r → r.response ≠ [] →
      repeatLastResponse st
        = ({st with isSpeaking := false},
           [.speakingStart, .spoke r.response, .speakingEnd])) ∧
    (∀ st : AMState, st.lastResponse = none →
      repeatLastResponse st
        = ({st with isSpeaking := false},
           [.speakingStart, .spoke nothingSaidText, .speakingEnd])) := by
  refine ⟨?_, ?_, ?_⟩
  · intro st svc
    have hq : (lit "repeat" : Str) ≠ [] := by decide
    have hdet : detectCommandIntent (lit "repeat") = some (.repeatCmd, []) := by decide
    have hpr : (processQuery st.nlp (lit "repeat") svc).2
        = {query := lit "repeat", response := repeatAckText, success := true,
           isCommand := true, intent := some .repeatCmd, shouldRepeat := true} := by
      unfold processQuery
      rw [if_neg hq, hdet]
      rfl
    constructor
    · obtain ⟨n, t, hh⟩ := runTurn_history st (lit "repeat") svc
      refine ⟨n, t, ?_⟩
      unfold processTextInput
      rw [if_neg hq, hh, hpr]
    · unfold processTextInput
      rw [if_neg hq]
      have hsp := runTurn_spoke st (lit "repeat") svc (by rw [hpr]; decide)
      rw [hpr] at hsp
      exact hsp
  · intro st r hr hne
    have h1 : repeatLastResponse st = speakResponse st r.response := by
      unfold repeatLastResponse
      rw [hr]
    rw [h1]
    unfold speakResponse
    rw [if_neg hne]
  · intro st hr
    have h1 : repeatLastResponse st = speakResponse st nothingSaidText := by
      unfold repeatLastResponse
      rw [hr]
    rw [h1]
    unfold speakResponse
    rw [if_neg (by decide : ¬(nothingSaidText = ([] : Str)))]

/-- Witness for C4's amended theorem: the repeat-last operation on the
initial state (empty cache) speaks the fixed message. -/
theorem repeat_command_behavior_witness :
    repeatLastResponse initState
      = ({initState with isSpeaking := false},
         [.speakingStart, .spoke nothingSaidText, .speakingEnd]) :=
  repeat_command_behavior.2.2 initState rfl

/-- C5 counterexample: `set_user_info` with the invalid type `"admin"` leaves
the state exactly unchanged but returns no validation failure of any kind —
the Python method returns `None`, and its only observable outcome besides the
unchanged state is that it still fires the user-info-changed callback, with
the old identity, as if an update had happened. -/
theorem invalid_type_ignored_without_failure :
    setUserInfo initState none (some (lit "admin"))
      = (initState, [.userInfoChanged (lit "User") (lit "student")]) := by
  decide

/-- C5 (amended): `setIdentity(name := "Alice", type := "student")` followed
by `getIdentity()` returns exactly `{Alice, student}`; an attempted update
with a type outside the enumerated set leaves the state unchanged but
signals no validation failure — the call is silently ignored and the
user-info-changed callback still fires with the unchanged identity; and the
identity-type invariant (both stored copies are `staff` or `student`) holds
initially and is preserved by every operation. -/
theorem identity_roundtrip_and_type_invariant :
    (∀ st : AMState,
      getUserInfo (setUserInfo st (some (lit "Alice")) (some (lit "student"))).1
        = (lit "Alice", lit "student")) ∧
    (∀ (st : AMState) (t : Str), t ∉ allowedTypes →
      (setUserInfo st none (some t)).1 = st) ∧
    (∀ (st : AMState) (t : Str), t ≠ [] → t ∉ allowedTypes →
      (setUserInfo st none (some t)).2
        = [.userInfoChanged st.userName st.userType]) ∧
    typeInv initState ∧
    (∀ (st : AMState) (n t : Option Str), typeInv st → typeInv (setUserInfo st n t).1) ∧
    (∀ (st : AMState) (q : Str) (svc : Except ServiceError RagSuccess), typeInv st →
      typeInv (processTextInput st q svc).1) ∧
    (∀ (st : AMState) (sp : SpeechOutcome) (svc : Except ServiceError RagSuccess),
      typeInv st → typeInv (listenAndRespondStep st sp svc).1) ∧
    (∀ st : AMState, typeInv st → typeInv (repeatLastResponse st).1) ∧
    (∀ st : AMState, typeInv st → typeInv (clearConversationHistory st)) := by
  refine ⟨?_, ?_, ?_, ?_, ?_, ?_, ?_, ?_, ?_⟩
  · intro st
    rfl
  · intro st t ht
    simp only [setUserInfo, truthyOpt]
    rw [if_neg (fun hc => ht hc.2 :
      ¬((!t.isEmpty) = true ∧ (some t).getD [] ∈ allowedTypes))]
    split_ifs <;> first | rfl | (exfalso; assumption)
  · intro st t hne ht
    have hne' : t.isEmpty = false := by
      cases t
      · exact absurd rfl hne
      · rfl
    simp only [setUserInfo, truthyOpt]
    rw [if_neg (fun hc => ht hc.2 :
      ¬((!t.isEmpty) = true ∧ (some t).getD [] ∈ allowedTypes))]
    rw [if_pos (Or.inr (by rw [hne']; rfl) :
      (false = true ∨ (!t.isEmpty) = true))]
    split_ifs <;> first | rfl | (exfalso; assumption)
  · exact ⟨by decide, by decide⟩
  · intro st n t h
    simp only [setUserInfo]
    split_ifs <;> simp_all [typeInv]
  · intro st q svc h
    unfold processTextInput
    split_ifs with hq
    · exact h
    · exact typeInv_runTurn st q svc h
  · intro st sp svc h
    unfold listenAndRespondStep
    split_ifs with hl
    · exact h
    · cases sp with
      | timeout => exact ⟨h.1, h.2⟩
      | initError => exact ⟨h.1, h.2⟩
      | noSpeech => exact ⟨h.1, h.2⟩
      | recognized t =>
          dsimp only
          split_ifs with ht
          · exact ⟨h.1, h.2⟩
          · exact typeInv_runTurn _ t svc ⟨h.1, h.2⟩
  · intro st h
    unfold repeatLastResponse speakResponse
    cases hlr : st.lastResponse <;> dsimp only <;> split_ifs <;> exact ⟨h.1, h.2⟩
  · intro st h
    exact ⟨h.1, h.2⟩

/-- Witness for C5's amended theorem at the invalid type `"admin"`. -/
theorem identity_roundtrip_and_type_invariant_witness :
    (setUserInfo initState none (some (lit "admin"))).1 = initState ∧
    typeInv (processTextInput initState (lit "i am a staff")
      (.error (.transport []))).1 :=
  ⟨identity_roundtrip_and_type_invariant.2.1 initState (lit "admin") (by decide),
   identity_roundtrip_and_type_invariant.2.2.2.2.2.1 initState (lit "i am a staff")
     (.error (.transport [])) ⟨by decide, by decide⟩⟩

/-- C6: submitting `"i am a staff"` matches `SetUserType`, stores `staff` in
both identity copies and fires the user-info-changed callback; submitting
`"i am a teacher"` matches no pattern (the literal must be `staff` or
`student`) and is dispatched to the answer service as a free-form query
instead, leaving the identity untouched. -/
theorem set_user_type_staff_vs_teacher :
    (∀ (st : AMState) (svc : Except ServiceError RagSuccess),
      st.userName = st.nlp.userName → st.userType = st.nlp.userType →
      st.userType ≠ lit "staff" →
      (processTextInput st (lit "i am a staff") svc).1.userType = lit "staff" ∧
      (processTextInput st (lit "i am a staff") svc).1.nlp.userType = lit "staff" ∧
      Event.userInfoChanged st.nlp.userName (lit "staff")
        ∈ (processTextInput st (lit "i am a staff") svc).2) ∧
    detectCommandIntent (lit "i am a teacher") = none ∧
    (∀ (st : AMState) (r : RagSuccess),
      (processTextInput st (lit "i am a teacher") (.ok r)).1.nlp = st.nlp ∧
      Event.responseReady
          {query := lit "i am a teacher", response := r.answer, success := true,
           isCommand := false, confidence := some r.confidence, sources := r.sources}
        ∈ (processTextInput st (lit "i am a teacher") (.ok r)).2) := by
  refine ⟨?_, by decide, ?_⟩
  · intro st svc hn ht hstaff
    have hq : (lit "i am a staff" : Str) ≠ [] := by decide
    have hdet : detectCommandIntent (lit "i am a staff")
        = some (.setUserType, [lit "staff"]) := by decide
    have hpr : (processQuery st.nlp (lit "i am a staff") svc).1
        = {st.nlp with userType := lit "staff"} := by
      unfold processQuery
      rw [if_neg hq, hdet]
      rfl
    have hch : st.userName ≠ (processQuery st.nlp (lit "i am a staff") svc).1.userName ∨
        st.userType ≠ (processQuery st.nlp (lit "i am a staff") svc).1.userType := by
      right
      rw [hpr]
      exact hstaff
    have hspec := runTurn_changed_spec st (lit "i am a staff") svc hch
    have hnlp := runTurn_nlp st (lit "i am a staff") svc
    unfold processTextInput
    rw [if_neg hq]
    refine ⟨?_, ?_, ?_⟩
    · rw [hspec.1, hpr]
    · rw [hnlp, hpr]
    · have := hspec.2.2
      rw [hpr] at this
      simpa [hn] using this
  · intro st r
    have hq : (lit "i am a teacher" : Str) ≠ [] := by decide
    have hdet : detectCommandIntent (lit "i am a teacher") = none := by decide
    have hrec := processQuery_ok_record st.nlp (lit "i am a teacher") r hq hdet
    unfold processTextInput
    rw [if_neg hq]
    constructor
    · rw [runTurn_nlp, hrec]
    · have := runTurn_responseReady st (lit "i am a teacher") (.ok r)
      rw [hrec] at this
      exact this

/-- Witness for C6 at the initial state. -/
theorem set_user_type_staff_vs_teacher_witness :
    (processTextInput initState (lit "i am a staff")
        (.error (.transport []))).1.userType = lit "staff" ∧
    (processTextInput initState (lit "i am a staff")
        (.error (.transport []))).1.nlp.userType = lit "staff" ∧
    Event.userInfoChanged initState.nlp.userName (lit "staff")
      ∈ (processTextInput initState (lit "i am a staff") (.error (.transport []))).2 :=
  set_user_type_staff_vs_teacher.1 initState (.error (.transport []))
    rfl rfl (by decide)

/-- C7: at most one voice-listening operation is in flight — a voice-turn
request made while the listening flag is up returns immediately with the
state unchanged and no callback fired (and its result does not depend on any
collaborator outcome); any voice turn started from a non-listening state ends
with the flag down again; and from a non-listening state a request proceeds:
the recognizer runs and recognised text goes through the full turn body. -/
theorem single_listen_in_flight :
    (∀ (st : AMState) (sp : SpeechOutcome) (svc : Except ServiceError RagSuccess),
        st.isListening = true → listenAndRespondStep st sp svc = (st, [])) ∧
    (∀ (st : AMState) (sp : SpeechOutcome) (svc : Except ServiceError RagSuccess),
        st.isListening = false → (listenAndRespondStep st sp svc).1.isListening = false) ∧
    (∀ (st : AMState) (t : Str) (svc : Except ServiceError RagSuccess),
        st.isListening = false → t ≠ [] →
        (listenAndRespondStep st (.recognized t) svc).2
          = .listeningStart :: .listeningEnd ::
              (runTurn {st with isListening := false} t svc).2) := by
  refine ⟨?_, ?_, ?_⟩
  · intro st sp svc h
    unfold listenAndRespondStep
    rw [if_pos h]
  · intro st sp svc h
    unfold listenAndRespondStep
    rw [if_neg (by simp [h])]
    cases sp with
    | timeout => rfl
    | initError => rfl
    | noSpeech => rfl
    | recognized t =>
        dsimp only
        split_ifs with ht
        · rfl
        · rw [runTurn_isListening]
  · intro st t svc h ht
    unfold listenAndRespondStep
    rw [if_neg (by simp [h])]
    dsimp only
    rw [if_neg ht]

/-- Witness for C7: a concrete rejected second request and a completed turn. -/
theorem single_listen_in_flight_witness :
    listenAndRespondStep {initState with isListening := true} .timeout
        (.error (.transport []))
      = ({initState with isListening := true}, []) ∧
    (listenAndRespondStep initState .noSpeech (.error (.transport []))).1.isListening
      = false ∧
    (listenAndRespondStep initState (.recognized (lit "hello"))
        (.error (.transport []))).2
      = .listeningStart :: .listeningEnd ::
          (runTurn {initState with isListening := false} (lit "hello")
            (.error (.transport []))).2 :=
  ⟨single_listen_in_flight.1 _ .timeout _ rfl,
   single_listen_in_flight.2.1 initState .noSpeech _ rfl,
   single_listen_in_flight.2.2 initState (lit "hello") _ rfl (by decide)⟩
